import Mathlib

/-!
Shallow embedding of `rest_framework_json_api/pagination.py`.

The module builds a JSON-API pagination envelope from a page object and an
optional request context.  Pages, paginators and requests are external
collaborators; we model them as plain records.  Accessors
`next_page_number` / `previous_page_number` are defined only when
`has_next` / `has_previous` holds, so they are embedded as `Option Int`
and every code path that reads them is fallible (returns `Option`).
-/

namespace Pagination

/-- A URL, split into its non-query part and the ordered list of query
parameters.  The original code manipulates URLs as strings through the
external helper `replace_query_param`; the structured form lets us state
its substitution rule faithfully. -/
structure Url where
  base : String
  query : List (String × String)
deriving Repr, DecidableEq

/-- Render a query-parameter list as `k1=v1&k2=v2...`. -/
def renderQuery : List (String × String) → String
  | [] => ""
  | [kv] => kv.1 ++ "=" ++ kv.2
  | kv :: rest => kv.1 ++ "=" ++ kv.2 ++ "&" ++ renderQuery rest

/-- Render a structured URL back to the string the code would return:
the base followed by `?k1=v1&k2=v2...` when any query parameter exists. -/
def Url.render (u : Url) : String :=
  match u.query with
  | [] => u.base
  | _ => u.base ++ "?" ++ renderQuery u.query

/-- Replace the value of `key` at its first occurrence (dropping any later
duplicates of `key`), or append `(key, val)` when `key` is absent. -/
def setParam : List (String × String) → String → String → List (String × String)
  | [], key, val => [(key, val)]
  | (k, v) :: rest, key, val =>
    if k = key then (key, val) :: rest.filter (fun kv => !(kv.1 == key))
    else (k, v) :: setParam rest key val

/-- Modelled from the spec: `replace_query_param` is imported from the
external web framework and is not part of this repository.  The spec gives
its contract: given a URL possibly already containing a `page` parameter,
replace its value; if absent, append it; preserve all other existing query
parameters and the path/host untouched. -/
def replace_query_param (url : Url) (key val : String) : Url :=
  { url with query := setParam url.query key val }

/-- External paginator collaborator: total item count and total page count. -/
structure Paginator where
  count : Int
  num_pages : Int
deriving Repr, DecidableEq

/-- External page collaborator.  `next_page_number` / `previous_page_number`
are `none` exactly when the accessor is undefined on the real object. -/
structure Page where
  number : Int
  has_next : Bool
  has_previous : Bool
  next_page_number : Option Int
  previous_page_number : Option Int
  paginator : Paginator
deriving Repr, DecidableEq

/-- The input contract of the spec: the page-number accessors are defined
exactly when the corresponding boolean holds. -/
def Page.wf (p : Page) : Prop :=
  p.next_page_number.isSome = p.has_next ∧
  p.previous_page_number.isSome = p.has_previous

instance (p : Page) : Decidable p.wf := by
  unfold Page.wf; infer_instance

/-- External request collaborator: supplies the absolute URL of the
current request. -/
structure Request where
  build_absolute_uri : Url
deriving Repr, DecidableEq

/-- The `meta.pagination` block of the envelope. -/
structure PaginationMeta where
  page : Int
  pages : Int
  count : Int
deriving Repr, DecidableEq

/-- The `links` block of the envelope. -/
structure Links where
  first : Option String
  last : Option String
  next : Option String
  prev : Option String
deriving Repr, DecidableEq

/-- The response body assembled by `get_paginated_response`. -/
structure Envelope (α : Type) where
  results : List α
  meta : PaginationMeta
  links : Links
deriving Repr, DecidableEq

/-- State of a `PageNumberPagination` instance at response time:
`self.request` (possibly absent) and `self.page`. -/
structure PageNumberPagination where
  request : Option Request
  page : Page
deriving Repr, DecidableEq

/-- The expression `request and request.build_absolute_uri() or ''`, which
the code repeats at every link construction site: the base URL of the
request, or the empty URL when no request is present. -/
def requestUrl : Option Request → Url
  | none => { base := "", query := [] }
  | some r => r.build_absolute_uri

/-- `PageNumberPagination.build_link`: `None` on a falsy index (absent or
zero); otherwise substitute the `page` query parameter into the request
URL, the empty string standing in for a missing request. -/
def PageNumberPagination.build_link (self : PageNumberPagination)
    (index : Option Int) : Option String :=
  match index with
  | none => none
  | some i =>
    if i = 0 then none
    else
      let url : Url := requestUrl self.request
      some (replace_query_param url "page" (toString i)).render

/-- `PageNumberPagination.get_paginated_response`: assemble the envelope.
Reading an undefined page-number accessor is the only way it can fail. -/
def PageNumberPagination.get_paginated_response {α : Type}
    (self : PageNumberPagination) (data : List α) : Option (Envelope α) := do
  let next : Option Int ←
    if self.page.has_next then self.page.next_page_number.map some else some none
  let previous : Option Int ←
    if self.page.has_previous then self.page.previous_page_number.map some else some none
  some
    { results := data
      meta :=
        { page := self.page.number
          pages := self.page.paginator.num_pages
          count := self.page.paginator.count }
      links :=
        { first := self.build_link (some 1)
          last := self.build_link (some self.page.paginator.num_pages)
          next := self.build_link next
          prev := self.build_link previous } }

/-- `self.context` of a serializer field: may or may not hold a request. -/
structure FieldContext where
  request : Option Request
deriving Repr, DecidableEq

/-- The `page_field` attribute shared by the legacy field classes. -/
def page_field : String := "page"

/-- `NextPageLinkField.to_representation`: link to the next page, `None`
when there is no next page. -/
def NextPageLinkField.to_representation (context : FieldContext)
    (value : Page) : Option (Option String) :=
  if !value.has_next then some none
  else do
    let page ← value.next_page_number
    let url : Url := requestUrl context.request
    some (some (replace_query_param url page_field (toString page)).render)

/-- `NextPageField.to_representation`: the next page number, `None` when
there is no next page. -/
def NextPageField.to_representation (value : Page) : Option (Option Int) :=
  if !value.has_next then some none
  else value.next_page_number.map some

/-- `PreviousPageLinkField.to_representation`: link to the previous page,
`None` when there is no previous page. -/
def PreviousPageLinkField.to_representation (context : FieldContext)
    (value : Page) : Option (Option String) :=
  if !value.has_previous then some none
  else do
    let page ← value.previous_page_number
    let url : Url := requestUrl context.request
    some (some (replace_query_param url page_field (toString page)).render)

/-- `PreviousPageField.to_representation`: the previous page number,
`None` when there is no previous page. -/
def PreviousPageField.to_representation (value : Page) : Option (Option Int) :=
  if !value.has_previous then some none
  else value.previous_page_number.map some

/-- `PageField.to_representation`: the current page number. -/
def PageField.to_representation (value : Page) : Int :=
  value.number

/-- The legacy flat output shape declared by `PaginationSerializer`:
sibling keys `next`, `next_link`, `page`, `previous`, `previous_link`,
`count`, `total`. -/
structure FlatEnvelope where
  next : Option Int
  next_link : Option String
  page : Int
  previous : Option Int
  previous_link : Option String
  count : Int
  total : Int
deriving Repr, DecidableEq

/-- `PaginationSerializer`: the class wires each declared field to its
source (`source='*'` fields read the page object itself; `count` and
`total` read `paginator.count` and `paginator.num_pages`). -/
def PaginationSerializer.to_representation (context : FieldContext)
    (value : Page) : Option FlatEnvelope := do
  let n ← NextPageField.to_representation value
  let nl ← NextPageLinkField.to_representation context value
  let p ← PreviousPageField.to_representation value
  let pl ← PreviousPageLinkField.to_representation context value
  some
    { next := n
      next_link := nl
      page := PageField.to_representation value
      previous := p
      previous_link := pl
      count := value.paginator.count
      total := value.paginator.num_pages }

/-- Concrete data used by the witnesses: page 2 of 5, count 98, with both
neighbours, as in the end-to-end scenario of the spec. -/
def examplePage : Page :=
  { number := 2
    has_next := true
    has_previous := true
    next_page_number := some 3
    previous_page_number := some 1
    paginator := { count := 98, num_pages := 5 } }

/-- The example request of the spec. -/
def exampleRequest : Request :=
  { build_absolute_uri := { base := "https://api.example.com/things", query := [] } }

/-- Pagination state for the example scenario. -/
def examplePagination : PageNumberPagination :=
  { request := some exampleRequest, page := examplePage }

/-- An empty result set: zero pages, zero items, no neighbours. -/
def emptyPage : Page :=
  { number := 1
    has_next := false
    has_previous := false
    next_page_number := none
    previous_page_number := none
    paginator := { count := 0, num_pages := 0 } }

/-- Pagination state over the empty result set with no request context. -/
def emptyPagination : PageNumberPagination :=
  { request := none, page := emptyPage }

theorem string_append_assoc (a b c : String) : a ++ b ++ c = a ++ (b ++ c) := by
  rcases a with ⟨a⟩
  rcases b with ⟨b⟩
  rcases c with ⟨c⟩
  show String.mk (a ++ b ++ c) = String.mk (a ++ (b ++ c))
  rw [List.append_assoc]

theorem render_empty_base (t : String) :
    Url.render { base := "", query := [("page", t)] } = "?page=" ++ t := by
  have e1 : ("page" ++ "=" : String) = "page=" := rfl
  have e2 : ("" ++ "?" : String) = "?" := rfl
  have e3 : ("?" ++ "page=" : String) = "?page=" := rfl
  show ("" ++ "?") ++ ("page" ++ "=" ++ t) = "?page=" ++ t
  rw [e1, e2, ← string_append_assoc, e3]

theorem render_base_page (b t : String) :
    Url.render { base := b, query := [("page", t)] } = b ++ "?page=" ++ t := by
  have e1 : ("page" ++ "=" : String) = "page=" := rfl
  have e2 : ("?" ++ "page=" : String) = "?page=" := rfl
  show (b ++ "?") ++ ("page" ++ "=" ++ t) = b ++ "?page=" ++ t
  rw [e1, ← string_append_assoc (b ++ "?") "page=" t, string_append_assoc b "?" "page=", e2]

theorem render_page_sort (b t : String) :
    Url.render { base := b, query := [("page", t), ("sort", "name")] } =
      b ++ "?page=" ++ t ++ "&sort=name" := by
  have e1 : ("page" ++ "=" : String) = "page=" := rfl
  have e2 : ("?" ++ "page=" : String) = "?page=" := rfl
  have e3 : ("sort" ++ "=" ++ "name" : String) = "sort=name" := rfl
  have e4 : ("&" ++ "sort=name" : String) = "&sort=name" := rfl
  show (b ++ "?") ++ ("page" ++ "=" ++ t ++ "&" ++ ("sort" ++ "=" ++ "name")) =
    b ++ "?page=" ++ t ++ "&sort=name"
  rw [e1, e3, string_append_assoc ("page=" ++ t) "&" "sort=name", e4,
    ← string_append_assoc (b ++ "?") ("page=" ++ t) "&sort=name",
    ← string_append_assoc (b ++ "?") "page=" t, string_append_assoc b "?" "page=", e2]

theorem filter_not_eq_of_filter_nil (l : List (String × String)) (k : String)
    (hl : l.filter (fun kv => kv.1 == k) = []) :
    l.filter (fun kv => !(kv.1 == k)) = l := by
  apply List.filter_eq_self.mpr
  intro a ha
  have h2 := List.filter_eq_nil_iff.mp hl a ha
  cases hb : a.1 == k with
  | false => rfl
  | true => exact absurd hb h2

theorem setParam_of_filter_eq (q : List (String × String)) (k v : String)
    (hq : q.filter (fun kv => kv.1 == k) = [(k, v)]) : setParam q k v = q := by
  induction q with
  | nil => exact absurd hq (by simp)
  | cons a rest ih =>
    obtain ⟨k1, v1⟩ := a
    rw [List.filter_cons] at hq
    by_cases hk : k1 = k
    · subst hk
      rw [if_pos (show ((k1, v1).1 == k1) = true by simp)] at hq
      injection hq with h1 h2
      injection h1 with h0 hv
      simp only [setParam]
      rw [if_pos trivial, filter_not_eq_of_filter_nil rest k1 h2, hv]
    · rw [if_neg (show ¬ ((k1, v1).1 == k) = true by simp [hk])] at hq
      simp only [setParam]
      rw [if_neg hk]
      exact congrArg (List.cons (k1, v1)) (ih hq)

theorem setParam_filter_key (q : List (String × String)) (k v : String) :
    (setParam q k v).filter (fun kv => kv.1 == k) = [(k, v)] := by
  induction q with
  | nil => simp [setParam]
  | cons a rest ih =>
    obtain ⟨k1, v1⟩ := a
    simp only [setParam]
    by_cases hk : k1 = k
    · rw [if_pos hk, List.filter_cons, if_pos (show ((k, v).1 == k) = true by simp),
        List.filter_filter]
      have hz : List.filter (fun a : String × String => (a.1 == k) && !(a.1 == k)) rest
          = [] := by
        apply List.filter_eq_nil_iff.mpr
        intro a ha
        cases hb : a.1 == k <;> simp [hb]
      rw [hz]
    · rw [if_neg hk, List.filter_cons,
        if_neg (show ¬ ((k1, v1).1 == k) = true by simp [hk])]
      exact ih

theorem setParam_filter_ne (q : List (String × String)) (k v : String) :
    (setParam q k v).filter (fun kv => !(kv.1 == k)) =
      q.filter (fun kv => !(kv.1 == k)) := by
  induction q with
  | nil => simp [setParam]
  | cons a rest ih =>
    obtain ⟨k1, v1⟩ := a
    simp only [setParam]
    by_cases hk : k1 = k
    · subst hk
      rw [if_pos rfl, List.filter_cons, List.filter_cons,
        if_neg (show ¬ (!((k1, v).1 == k1)) = true by simp),
        if_neg (show ¬ (!((k1, v1).1 == k1)) = true by simp),
        List.filter_filter]
      simp only [Bool.and_self]
    · rw [if_neg hk, List.filter_cons, List.filter_cons,
        if_pos (show (!((k1, v1).1 == k)) = true by simp [hk]),
        if_pos (show (!((k1, v1).1 == k)) = true by simp [hk])]
      exact congrArg (List.cons (k1, v1)) ih

/-- Shape of the envelope whenever the page satisfies the input contract. -/
theorem get_paginated_response_wf {α : Type} (self : PageNumberPagination)
    (data : List α) (h : self.page.wf) :
    self.get_paginated_response data = some
      { results := data
        meta :=
          { page := self.page.number
            pages := self.page.paginator.num_pages
            count := self.page.paginator.count }
        links :=
          { first := self.build_link (some 1)
            last := self.build_link (some self.page.paginator.num_pages)
            next := self.build_link
              (if self.page.has_next then self.page.next_page_number else none)
            prev := self.build_link
              (if self.page.has_previous then self.page.previous_page_number else none) } } := by
  obtain ⟨hn, hp⟩ := h
  cases hno : self.page.next_page_number <;> cases hpo : self.page.previous_page_number <;>
      rw [hno] at hn <;> rw [hpo] at hp <;> simp at hn hp <;>
    simp [PageNumberPagination.get_paginated_response, hno, hpo, hn, hp]

theorem build_link_no_request (self : PageNumberPagination) (i : Int)
    (hr : self.request = none) (hi : ¬ i = 0) :
    self.build_link (some i) = some ("?page=" ++ toString i) := by
  simp only [PageNumberPagination.build_link, hr, if_neg hi, requestUrl,
    replace_query_param, Option.some.injEq]
  exact render_empty_base (toString i)

theorem build_link_shape (self : PageNumberPagination) (hr : self.request = none)
    (o : Option Int) :
    self.build_link o = none ∨
      ∃ n : Int, self.build_link o = some ("?page=" ++ toString n) := by
  match o with
  | none => exact Or.inl rfl
  | some i =>
    by_cases hi : i = 0
    · exact Or.inl (by simp [PageNumberPagination.build_link, hi])
    · exact Or.inr ⟨i, build_link_no_request self i hr hi⟩

/-- Claim C1: for every page object, in the envelope returned by
`get_paginated_response` the `links.next` entry is null when `has_next` is
false (and equals `build_link (next_page_number)` otherwise), and the
`links.prev` entry is null when `has_previous` is false (and equals
`build_link (previous_page_number)` otherwise). -/
theorem C1_links_next_prev {α : Type} (self : PageNumberPagination)
    (data : List α) (h : self.page.wf) :
    ∃ e : Envelope α, self.get_paginated_response data = some e ∧
      (self.page.has_next = false → e.links.next = none) ∧
      (self.page.has_next = true →
        e.links.next = self.build_link self.page.next_page_number) ∧
      (self.page.has_previous = false → e.links.prev = none) ∧
      (self.page.has_previous = true →
        e.links.prev = self.build_link self.page.previous_page_number) := by
  refine ⟨_, get_paginated_response_wf self data h, ?_, ?_, ?_, ?_⟩ <;>
    intro hb <;> simp [hb, PageNumberPagination.build_link]

/-- Witness for C1 on the example scenario (page 2 of 5). -/
theorem C1_witness :
    examplePagination.page.wf ∧
    (∃ e : Envelope Nat, examplePagination.get_paginated_response [10, 20] = some e ∧
      (examplePagination.page.has_next = false → e.links.next = none) ∧
      (examplePagination.page.has_next = true →
        e.links.next = examplePagination.build_link examplePagination.page.next_page_number) ∧
      (examplePagination.page.has_previous = false → e.links.prev = none) ∧
      (examplePagination.page.has_previous = true →
        e.links.prev = examplePagination.build_link examplePagination.page.previous_page_number)) :=
  ⟨by decide, C1_links_next_prev examplePagination [10, 20] (by decide)⟩

/-- Claim C2: `build_link` returns null on an absent index; in particular
for a paginator with `num_pages = 0` the `links.last` entry is null
(index 0 hits the falsy null-guard) rather than a URL with `page=0`. -/
theorem C2_null_guard {α : Type} (self : PageNumberPagination)
    (data : List α) (h : self.page.wf) :
    self.build_link none = none ∧
    (self.page.paginator.num_pages = 0 →
      ∃ e : Envelope α, self.get_paginated_response data = some e ∧
        e.links.last = none) := by
  refine ⟨rfl, fun h0 => ⟨_, get_paginated_response_wf self data h, ?_⟩⟩
  simp [h0, PageNumberPagination.build_link]

/-- Witness for C2 on the empty result set (zero pages). -/
theorem C2_witness :
    emptyPagination.page.wf ∧
    (emptyPagination.build_link none = none ∧
      (emptyPagination.page.paginator.num_pages = 0 →
        ∃ e : Envelope Nat, emptyPagination.get_paginated_response [] = some e ∧
          e.links.last = none)) :=
  ⟨by decide, C2_null_guard emptyPagination [] (by decide)⟩

/-- Claim C3: for every page, the `links.first` entry of the envelope
equals `build_link 1`, and it is never null when `num_pages >= 1`. -/
theorem C3_links_first {α : Type} (self : PageNumberPagination)
    (data : List α) (h : self.page.wf) :
    ∃ e : Envelope α, self.get_paginated_response data = some e ∧
      e.links.first = self.build_link (some 1) ∧
      (1 ≤ self.page.paginator.num_pages → e.links.first.isSome = true) := by
  refine ⟨_, get_paginated_response_wf self data h, rfl, fun _ => ?_⟩
  simp [PageNumberPagination.build_link]

/-- Witness for C3 on the example scenario. -/
theorem C3_witness :
    examplePagination.page.wf ∧
    (∃ e : Envelope Nat, examplePagination.get_paginated_response [10, 20] = some e ∧
      e.links.first = examplePagination.build_link (some 1) ∧
      (1 ≤ examplePagination.page.paginator.num_pages → e.links.first.isSome = true)) :=
  ⟨by decide, C3_links_first examplePagination [10, 20] (by decide)⟩

/-- Claim C4: the envelope carries the items through unchanged under the
`results` key, and `meta.pagination` equals
`{page: page.number, pages: paginator.num_pages, count: paginator.count}`. -/
theorem C4_results_meta {α : Type} (self : PageNumberPagination)
    (data : List α) (h : self.page.wf) :
    ∃ e : Envelope α, self.get_paginated_response data = some e ∧
      e.results = data ∧
      e.meta.page = self.page.number ∧
      e.meta.pages = self.page.paginator.num_pages ∧
      e.meta.count = self.page.paginator.count :=
  ⟨_, get_paginated_response_wf self data h, rfl, rfl, rfl, rfl⟩

/-- Witness for C4 on the example scenario. -/
theorem C4_witness :
    examplePagination.page.wf ∧
    (∃ e : Envelope Nat, examplePagination.get_paginated_response [10, 20] = some e ∧
      e.results = [10, 20] ∧
      e.meta.page = examplePagination.page.number ∧
      e.meta.pages = examplePagination.page.paginator.num_pages ∧
      e.meta.count = examplePagination.page.paginator.count) :=
  ⟨by decide, C4_results_meta examplePagination [10, 20] (by decide)⟩

/-- The example page served with no request context. -/
def noRequestPagination : PageNumberPagination :=
  { request := none, page := examplePage }

/-- A field serializer context with no request. -/
def noRequestContext : FieldContext :=
  { request := none }

/-- Claim C5: when no request context is present, `build_link` and the
link fields do not fail: the base URL degrades to the empty string, so
every non-null link in the output is a relative string `?page=N`. -/
theorem C5_no_request {α : Type} (self : PageNumberPagination) (ctx : FieldContext)
    (data : List α) (h : self.page.wf) (hr : self.request = none)
    (hc : ctx.request = none) :
    (∀ i : Int, ¬ i = 0 → self.build_link (some i) = some ("?page=" ++ toString i)) ∧
    (∃ e : Envelope α, self.get_paginated_response data = some e ∧
      ∀ l ∈ [e.links.first, e.links.last, e.links.next, e.links.prev],
        l = none ∨ ∃ n : Int, l = some ("?page=" ++ toString n)) ∧
    (∃ s, NextPageLinkField.to_representation ctx self.page = some s ∧
      (s = none ∨ ∃ n : Int, s = some ("?page=" ++ toString n))) ∧
    (∃ s, PreviousPageLinkField.to_representation ctx self.page = some s ∧
      (s = none ∨ ∃ n : Int, s = some ("?page=" ++ toString n))) := by
  obtain ⟨hn, hp⟩ := h
  refine ⟨fun i hi => build_link_no_request self i hr hi, ?_, ?_, ?_⟩
  · refine ⟨_, get_paginated_response_wf self data ⟨hn, hp⟩, ?_⟩
    intro l hl
    simp only [List.mem_cons, List.not_mem_nil, or_false] at hl
    rcases hl with rfl | rfl | rfl | rfl
    · exact build_link_shape self hr (some 1)
    · exact build_link_shape self hr (some self.page.paginator.num_pages)
    · exact build_link_shape self hr _
    · exact build_link_shape self hr _
  · cases hhn : self.page.has_next with
    | false =>
      exact ⟨none, by simp [NextPageLinkField.to_representation, hhn], Or.inl rfl⟩
    | true =>
      obtain ⟨n, hne⟩ := Option.isSome_iff_exists.mp (by rw [hn, hhn])
      refine ⟨some ("?page=" ++ toString n), ?_, Or.inr ⟨n, rfl⟩⟩
      simp [NextPageLinkField.to_representation, hhn, hne, hc, requestUrl,
        replace_query_param, setParam, page_field, render_empty_base]
  · cases hhp : self.page.has_previous with
    | false =>
      exact ⟨none, by simp [PreviousPageLinkField.to_representation, hhp], Or.inl rfl⟩
    | true =>
      obtain ⟨n, hne⟩ := Option.isSome_iff_exists.mp (by rw [hp, hhp])
      refine ⟨some ("?page=" ++ toString n), ?_, Or.inr ⟨n, rfl⟩⟩
      simp [PreviousPageLinkField.to_representation, hhp, hne, hc, requestUrl,
        replace_query_param, setParam, page_field, render_empty_base]

/-- Witness for C5: the example page with no request context anywhere. -/
theorem C5_witness :
    noRequestPagination.page.wf ∧ noRequestPagination.request = none ∧
    noRequestContext.request = none ∧
    ((∀ i : Int, ¬ i = 0 →
        noRequestPagination.build_link (some i) = some ("?page=" ++ toString i)) ∧
      (∃ e : Envelope Nat, noRequestPagination.get_paginated_response [10, 20] = some e ∧
        ∀ l ∈ [e.links.first, e.links.last, e.links.next, e.links.prev],
          l = none ∨ ∃ n : Int, l = some ("?page=" ++ toString n)) ∧
      (∃ s, NextPageLinkField.to_representation noRequestContext noRequestPagination.page
          = some s ∧ (s = none ∨ ∃ n : Int, s = some ("?page=" ++ toString n))) ∧
      (∃ s, PreviousPageLinkField.to_representation noRequestContext noRequestPagination.page
          = some s ∧ (s = none ∨ ∃ n : Int, s = some ("?page=" ++ toString n)))) :=
  ⟨by decide, rfl, rfl,
    C5_no_request noRequestPagination noRequestContext [10, 20] (by decide) rfl rfl⟩

/-- Claim C10: for every page, including one whose paginator has
`num_pages = 0`, the `links.first` entry is non-null: it is always built
from the literal index 1, which never triggers the falsy-index null
guard, and with no request context it is the relative string `?page=1`. -/
theorem C10_links_first_never_null {α : Type} (self : PageNumberPagination)
    (data : List α) (h : self.page.wf) :
    ∃ e : Envelope α, self.get_paginated_response data = some e ∧
      e.links.first.isSome = true ∧
      (self.request = none → e.links.first = some "?page=1") := by
  refine ⟨_, get_paginated_response_wf self data h, ?_, fun hr => ?_⟩
  · simp [PageNumberPagination.build_link]
  · show self.build_link (some 1) = some "?page=1"
    rw [build_link_no_request self 1 hr (by decide)]
    rfl

/-- Witness for C10 on the empty result set (zero pages, no request). -/
theorem C10_witness :
    emptyPagination.page.wf ∧
    (∃ e : Envelope Nat, emptyPagination.get_paginated_response [] = some e ∧
      e.links.first.isSome = true ∧
      (emptyPagination.request = none → e.links.first = some "?page=1")) :=
  ⟨by decide, C10_links_first_never_null emptyPagination [] (by decide)⟩

/-- A request whose URL already carries `page=3`. -/
def idemRequest : Request :=
  { build_absolute_uri := { base := "http://h/x", query := [("page", "3")] } }

/-- Pagination state over the example page for the idempotence scenario. -/
def idemPagination : PageNumberPagination :=
  { request := some idemRequest, page := examplePage }

/-- Claim C6: query-parameter substitution is idempotent: for every
non-null page index `p` and every base URL already containing `page=p`,
`build_link p` yields the same URL back. -/
theorem C6_idempotent (self : PageNumberPagination) (r : Request) (p : Int)
    (hp : ¬ p = 0) (hr : self.request = some r)
    (hq : r.build_absolute_uri.query.filter (fun kv => kv.1 == "page")
      = [("page", toString p)]) :
    self.build_link (some p) = some r.build_absolute_uri.render := by
  simp only [PageNumberPagination.build_link, hr, if_neg hp, requestUrl,
    replace_query_param, Option.some.injEq]
  rw [setParam_of_filter_eq _ _ _ hq]

/-- Witness for C6: URL `http://h/x?page=3` and index 3. -/
theorem C6_witness :
    (¬ (3 : Int) = 0) ∧ idemPagination.request = some idemRequest ∧
    idemRequest.build_absolute_uri.query.filter (fun kv => kv.1 == "page")
      = [("page", toString (3 : Int))] ∧
    idemPagination.build_link (some 3) = some idemRequest.build_absolute_uri.render :=
  ⟨by decide, rfl, by decide,
    C6_idempotent idemPagination idemRequest 3 (by decide) rfl (by decide)⟩

/-- Claim C7: for every non-null index, `build_link` replaces the value of
an existing `page` query parameter, appends `page` if absent, and
preserves all other query parameters and the path/host untouched; on a
URL with no query string it yields `<url>?page=N`, and on a URL with
`?page=1&sort=name` it yields `<url>?page=N&sort=name`. -/
theorem C7_replace_param (self : PageNumberPagination) (r : Request) (i : Int)
    (hi : ¬ i = 0) (hr : self.request = some r) :
    (replace_query_param r.build_absolute_uri "page" (toString i)).base
        = r.build_absolute_uri.base ∧
    (replace_query_param r.build_absolute_uri "page" (toString i)).query.filter
        (fun kv => kv.1 == "page") = [("page", toString i)] ∧
    (replace_query_param r.build_absolute_uri "page" (toString i)).query.filter
        (fun kv => !(kv.1 == "page"))
      = r.build_absolute_uri.query.filter (fun kv => !(kv.1 == "page")) ∧
    self.build_link (some i)
      = some ((replace_query_param r.build_absolute_uri "page" (toString i)).render) ∧
    (r.build_absolute_uri.query = [] →
      self.build_link (some i)
        = some (r.build_absolute_uri.base ++ "?page=" ++ toString i)) ∧
    (r.build_absolute_uri.query = [("page", "1"), ("sort", "name")] →
      self.build_link (some i)
        = some (r.build_absolute_uri.base ++ "?page=" ++ toString i ++ "&sort=name")) := by
  refine ⟨rfl, setParam_filter_key _ _ _, setParam_filter_ne _ _ _, ?_, ?_, ?_⟩
  · simp [PageNumberPagination.build_link, hi, hr, requestUrl]
  · intro hq0
    simp only [PageNumberPagination.build_link, hr, if_neg hi, requestUrl,
      replace_query_param, hq0, Option.some.injEq]
    have hsp : setParam [] "page" (toString i) = [("page", toString i)] := rfl
    rw [hsp]
    exact render_base_page _ _
  · intro hq1
    simp only [PageNumberPagination.build_link, hr, if_neg hi, requestUrl,
      replace_query_param, hq1, Option.some.injEq]
    have hsp : setParam [("page", "1"), ("sort", "name")] "page" (toString i)
        = [("page", toString i), ("sort", "name")] := by
      simp [setParam]
    rw [hsp]
    exact render_page_sort _ _

/-- Witness for C7 on the example scenario with index 3. -/
theorem C7_witness :
    (¬ (3 : Int) = 0) ∧ examplePagination.request = some exampleRequest ∧
    ((replace_query_param exampleRequest.build_absolute_uri "page"
          (toString (3 : Int))).base = exampleRequest.build_absolute_uri.base ∧
      (replace_query_param exampleRequest.build_absolute_uri "page"
          (toString (3 : Int))).query.filter (fun kv => kv.1 == "page")
        = [("page", toString (3 : Int))] ∧
      (replace_query_param exampleRequest.build_absolute_uri "page"
          (toString (3 : Int))).query.filter (fun kv => !(kv.1 == "page"))
        = exampleRequest.build_absolute_uri.query.filter (fun kv => !(kv.1 == "page")) ∧
      examplePagination.build_link (some 3)
        = some ((replace_query_param exampleRequest.build_absolute_uri "page"
            (toString (3 : Int))).render) ∧
      (exampleRequest.build_absolute_uri.query = [] →
        examplePagination.build_link (some 3)
          = some (exampleRequest.build_absolute_uri.base ++ "?page=" ++
              toString (3 : Int))) ∧
      (exampleRequest.build_absolute_uri.query = [("page", "1"), ("sort", "name")] →
        examplePagination.build_link (some 3)
          = some (exampleRequest.build_absolute_uri.base ++ "?page=" ++
              toString (3 : Int) ++ "&sort=name"))) :=
  ⟨by decide, rfl,
    C7_replace_param examplePagination exampleRequest 3 (by decide) rfl⟩

/-- Claim C9: every operation reads `next_page_number` only after
`has_next` returned true and `previous_page_number` only after
`has_previous` returned true, so under the precondition that the
accessors are defined exactly when the booleans hold, no undefined
accessor is ever evaluated: every operation succeeds. -/
theorem C9_reads_guarded {α : Type} (self : PageNumberPagination)
    (ctx : FieldContext) (data : List α) (h : self.page.wf) :
    (self.get_paginated_response data).isSome = true ∧
    (NextPageLinkField.to_representation ctx self.page).isSome = true ∧
    (NextPageField.to_representation self.page).isSome = true ∧
    (PreviousPageLinkField.to_representation ctx self.page).isSome = true ∧
    (PreviousPageField.to_representation self.page).isSome = true ∧
    (PaginationSerializer.to_representation ctx self.page).isSome = true := by
  obtain ⟨hn, hp⟩ := h
  cases hno : self.page.next_page_number <;> cases hpo : self.page.previous_page_number <;>
      rw [hno] at hn <;> rw [hpo] at hp <;> simp at hn hp <;>
    simp [PageNumberPagination.get_paginated_response,
      NextPageLinkField.to_representation, NextPageField.to_representation,
      PreviousPageLinkField.to_representation, PreviousPageField.to_representation,
      PaginationSerializer.to_representation, hno, hpo, hn, hp]

/-- Witness for C9 on the example scenario. -/
theorem C9_witness :
    examplePagination.page.wf ∧
    ((examplePagination.get_paginated_response [10, 20]).isSome = true ∧
      (NextPageLinkField.to_representation noRequestContext examplePagination.page).isSome
        = true ∧
      (NextPageField.to_representation examplePagination.page).isSome = true ∧
      (PreviousPageLinkField.to_representation noRequestContext
          examplePagination.page).isSome = true ∧
      (PreviousPageField.to_representation examplePagination.page).isSome = true ∧
      (PaginationSerializer.to_representation noRequestContext
          examplePagination.page).isSome = true) :=
  ⟨by decide, C9_reads_guarded examplePagination noRequestContext [10, 20] (by decide)⟩

/-- Shape of the legacy flat serializer output whenever the page satisfies
the input contract. -/
theorem flat_wf (ctx : FieldContext) (p : Page) (h : p.wf) :
    PaginationSerializer.to_representation ctx p = some
      { next := if p.has_next then p.next_page_number else none
        next_link := if p.has_next
          then p.next_page_number.map fun n =>
            (replace_query_param (requestUrl ctx.request) page_field (toString n)).render
          else none
        page := p.number
        previous := if p.has_previous then p.previous_page_number else none
        previous_link := if p.has_previous
          then p.previous_page_number.map fun n =>
            (replace_query_param (requestUrl ctx.request) page_field (toString n)).render
          else none
        count := p.paginator.count
        total := p.paginator.num_pages } := by
  obtain ⟨hn, hp⟩ := h
  cases hno : p.next_page_number <;> cases hpo : p.previous_page_number <;>
      rw [hno] at hn <;> rw [hpo] at hp <;> simp at hn hp <;>
    simp [PaginationSerializer.to_representation, NextPageField.to_representation,
      NextPageLinkField.to_representation, PreviousPageField.to_representation,
      PreviousPageLinkField.to_representation, PageField.to_representation,
      hno, hpo, hn, hp]

/-- Claim C8: the legacy flat serializer exposes exactly the same
navigation values as the nested envelope: `next`/`previous` equal the
envelope's conditional page numbers, `next_link`/`previous_link` equal
`links.next`/`links.prev`, `page` equals `meta.pagination.page`, `count`
equals `meta.pagination.count`, and `total` equals
`meta.pagination.pages`.  Page indices are 1-based, so defined
page-number accessors are positive. -/
theorem C8_flat_matches {α : Type} (self : PageNumberPagination) (ctx : FieldContext)
    (data : List α) (h : self.page.wf) (hreq : ctx.request = self.request)
    (hnpos : ∀ n : Int, self.page.next_page_number = some n → 0 < n)
    (hppos : ∀ n : Int, self.page.previous_page_number = some n → 0 < n) :
    ∃ e : Envelope α, ∃ fl : FlatEnvelope,
      self.get_paginated_response data = some e ∧
      PaginationSerializer.to_representation ctx self.page = some fl ∧
      fl.next_link = e.links.next ∧
      fl.previous_link = e.links.prev ∧
      fl.page = e.meta.page ∧
      fl.count = e.meta.count ∧
      fl.total = e.meta.pages ∧
      fl.next = (if self.page.has_next then self.page.next_page_number else none) ∧
      fl.previous
        = (if self.page.has_previous then self.page.previous_page_number else none) := by
  obtain ⟨hn, hp⟩ := h
  refine ⟨_, _, get_paginated_response_wf self data ⟨hn, hp⟩,
    flat_wf ctx self.page ⟨hn, hp⟩, ?_, ?_, rfl, rfl, rfl, rfl, rfl⟩
  · cases hno : self.page.next_page_number with
    | none =>
      rw [hno] at hn
      simp at hn
      simp [hn, PageNumberPagination.build_link]
    | some n =>
      rw [hno] at hn
      simp at hn
      have hpos := hnpos n hno
      have hn0 : ¬ n = 0 := by omega
      simp [hn, hno, PageNumberPagination.build_link, hn0, hreq, page_field]
  · cases hpo : self.page.previous_page_number with
    | none =>
      rw [hpo] at hp
      simp at hp
      simp [hp, PageNumberPagination.build_link]
    | some n =>
      rw [hpo] at hp
      simp at hp
      have hpos := hppos n hpo
      have hn0 : ¬ n = 0 := by omega
      simp [hp, hpo, PageNumberPagination.build_link, hn0, hreq, page_field]

/-- A field serializer context carrying the example request. -/
def exampleContext : FieldContext :=
  { request := some exampleRequest }

/-- Witness for C8 on the example scenario. -/
theorem C8_witness :
    examplePagination.page.wf ∧
    exampleContext.request = examplePagination.request ∧
    (∃ e : Envelope Nat, ∃ fl : FlatEnvelope,
      examplePagination.get_paginated_response [10, 20] = some e ∧
      PaginationSerializer.to_representation exampleContext examplePagination.page
        = some fl ∧
      fl.next_link = e.links.next ∧
      fl.previous_link = e.links.prev ∧
      fl.page = e.meta.page ∧
      fl.count = e.meta.count ∧
      fl.total = e.meta.pages ∧
      fl.next = (if examplePagination.page.has_next
        then examplePagination.page.next_page_number else none) ∧
      fl.previous = (if examplePagination.page.has_previous
        then examplePagination.page.previous_page_number else none)) :=
  ⟨by decide, rfl,
    C8_flat_matches examplePagination exampleContext [10, 20] (by decide) rfl
      (by intro n hn; simp [examplePagination, examplePage] at hn; omega)
      (by intro n hn; simp [examplePagination, examplePage] at hn; omega)⟩

end Pagination
